import Mathlib

/-!
Verification of the geometric-summary and layer-registry logic of the
30DayMapChallenge "Polygons" repository (Pinia data stores in
`src/stores/dataStore.js` and the unnamed store variant).

The JavaScript functions are shallowly embedded:

* GeoJSON values become inductive data (`Geometry`, `Feature`, `GeoJson`);
  a possibly-`null`/missing JavaScript value becomes an `Option`.
* `L.latLng(a, b).distanceTo(c)` (Leaflet's spherical great-circle
  distance) is an external library call; it is embedded as an explicit
  function parameter `dist : Coord → Coord → ℚ` applied to the raw
  `[lng, lat]` coordinate pairs, so every theorem about the surrounding
  code holds for the actual Leaflet metric.
* `Math.atan2`/`Math.round` in the angle computation become a real-valued
  `atan2` (defined below from the JavaScript specification of
  `Math.atan2`) composed with Mathlib's `round` (round half towards
  positive infinity, exactly the tie rule of `Math.round` and of
  `Number.prototype.toFixed` for the non-negative values that occur).
* The store methods with `await`/`try`/`catch` become explicit
  state-transition functions; a rejected promise is an explicit
  `Except.error` / event, so "the exception is caught" is rendered as
  totality of the transition function together with the state it leaves
  behind.
-/

/-- A GeoJSON coordinate pair as stored in the files: `[longitude, latitude]`. -/
abbrev Coord : Type := ℚ × ℚ

/-- The geometry types consumed by the store (`feature.geometry.type`
dispatch in `calculateBoundaryLength` / `calculateMainAngle`). -/
inductive Geometry : Type where
  | polygon (coordinates : List (List Coord))
  | multiPolygon (coordinates : List (List (List Coord)))
  | lineString (coordinates : List Coord)
  | point (coordinates : Coord)
deriving DecidableEq, Repr

/-- One entry of `geoJsonData.features`. -/
structure Feature : Type where
  geometry : Geometry
deriving DecidableEq, Repr

/-- A GeoJSON feature collection object.  `features` is an `Option` because
the JavaScript guard `!geoJsonData.features` distinguishes a missing
`features` property (falsy) from a present array — an empty array `[]` is
truthy in JavaScript and passes the guard. -/
structure GeoJson : Type where
  features : Option (List Feature)
deriving DecidableEq, Repr

/-- The rings over which `calculateBoundaryLength` iterates:
`Polygon` uses `coordinates` directly, `MultiPolygon` uses
`coordinates.flat()`; every other geometry type fails the
`type === 'Polygon' || type === 'MultiPolygon'` test and contributes
nothing. -/
def boundaryRings : Geometry → List (List Coord)
  | .polygon coordinates => coordinates
  | .multiPolygon coordinates => coordinates.flatten
  | .lineString _ => []
  | .point _ => []

/-- The inner loop `for (let i = 0; i < ring.length - 1; i++)`:
sum of `dist` over adjacent coordinate pairs. -/
def segmentSum (dist : Coord → Coord → ℚ) : List Coord → ℚ
  | p₁ :: p₂ :: rest => dist p₁ p₂ + segmentSum dist (p₂ :: rest)
  | _ => 0

/-- Length contributed by one ring, guarded by `if (ring.length > 1)`. -/
def ringLength (dist : Coord → Coord → ℚ) (ring : List Coord) : ℚ :=
  if 1 < ring.length then segmentSum dist ring else 0

/-- The `totalLength` accumulator of `calculateBoundaryLength`:
`features.forEach` adding every ring's segment sum. -/
def totalBoundaryLength (dist : Coord → Coord → ℚ) (feats : List Feature) : ℚ :=
  feats.foldl (fun acc f => acc + ((boundaryRings f.geometry).map (ringLength dist)).sum) 0

/-- `Number.prototype.toFixed(d)` for a finite rational: the ECMAScript
definition picks the integer `n` minimising `|n / 10^d - x|`, the larger
`n` on ties — that is Mathlib's `round` applied to `x * 10^d` — and prints
it with `d` digits after the point (only `d = 0` and `d = 1` occur in this
code base, so one fractional digit needs no padding). -/
def jsToFixed (d : ℕ) (x : ℚ) : String :=
  let n : ℤ := round (x * (10 : ℚ) ^ d)
  if d = 0 then toString n
  else toString (n / (10 : ℤ) ^ d) ++ "." ++ toString (n % (10 : ℤ) ^ d)

/-- The output formatting of `calculateBoundaryLength`:
`km = totalLength / 1000`, then
`km > 1000 ? (km/1000).toFixed(1) + 'k km' : km.toFixed(0) + ' km'`. -/
def formatLength (totalLength : ℚ) : String :=
  let km := totalLength / 1000
  if 1000 < km then jsToFixed 1 (km / 1000) ++ "k km" else jsToFixed 0 km ++ " km"

/-- `calculateBoundaryLength(geoJsonData)` from `src/stores/dataStore.js`.
The early `return 'N/A'` fires exactly when `geoJsonData` is null/undefined
or its `features` property is missing. -/
def calculateBoundaryLength (dist : Coord → Coord → ℚ) (geoJsonData : Option GeoJson) :
    String :=
  match geoJsonData with
  | none => "N/A"
  | some gj =>
    match gj.features with
    | none => "N/A"
    | some feats => formatLength (totalBoundaryLength dist feats)

/-- The vertex collector of `calculateMainAngle`: the same
`Polygon`/`MultiPolygon` ring flattening, then every ring's coordinates are
pushed onto `allPoints`; all other geometry types are skipped. -/
def anglePoints : Geometry → List Coord
  | .polygon coordinates => coordinates.flatten
  | .multiPolygon coordinates => coordinates.flatten.flatten
  | .lineString _ => []
  | .point _ => []

/-- `allPoints` after the `features.forEach` loop of `calculateMainAngle`. -/
def collectPoints (feats : List Feature) : List Coord :=
  feats.foldl (fun acc f => acc ++ anglePoints f.geometry) []

/-- `Math.min(...)` over a spread non-empty array, as a total function
(the `[]` case returns a junk value and is never reached: the caller has
already checked `allPoints.length < 2`). -/
def listMin : List ℚ → ℚ
  | [] => 0
  | x :: xs => xs.foldl min x

/-- `Math.max(...)` over a spread non-empty array, as a total function
(the `[]` case is unreachable, as in `listMin`). -/
def listMax : List ℚ → ℚ
  | [] => 0
  | x :: xs => xs.foldl max x

/-- The axis-aligned bounding box `minLng, maxLng, minLat, maxLat`
computed by `calculateMainAngle`. -/
structure BBox : Type where
  minLng : ℚ
  maxLng : ℚ
  minLat : ℚ
  maxLat : ℚ
deriving DecidableEq, Repr

/-- Bounding box of a point list (coordinates are `[lng, lat]`). -/
def bboxOf (pts : List Coord) : BBox :=
  { minLng := listMin (pts.map Prod.fst)
    maxLng := listMax (pts.map Prod.fst)
    minLat := listMin (pts.map Prod.snd)
    maxLat := listMax (pts.map Prod.snd) }

/-- `calculateMainAngle(geoJsonData)` with the trailing
`Math.round(Math.atan2(deltaLat, deltaLng) * 180 / Math.PI)` abstracted
into the parameter `angleOf deltaLat deltaLng`; the concrete function is
`jsAngleOf` below, and `calculateMainAngle` instantiates it. -/
def calculateMainAngleWith (angleOf : ℚ → ℚ → ℤ) (geoJsonData : Option GeoJson) :
    String :=
  match geoJsonData with
  | none => "N/A"
  | some gj =>
    match gj.features with
    | none => "N/A"
    | some feats =>
      let allPoints := collectPoints feats
      if allPoints.length < 2 then "N/A"
      else
        let b := bboxOf allPoints
        toString (angleOf (b.maxLat - b.minLat) (b.maxLng - b.minLng)) ++ "°"

/-- `Math.atan2(y, x)` on the reals, by the ECMAScript case analysis
(signed zeros do not exist in `ℝ`, so the `±0` clauses collapse). -/
noncomputable def atan2 (y x : ℝ) : ℝ :=
  if 0 < x then Real.arctan (y / x)
  else if x < 0 then
    if 0 ≤ y then Real.arctan (y / x) + Real.pi else Real.arctan (y / x) - Real.pi
  else
    if 0 < y then Real.pi / 2 else if y < 0 then -(Real.pi / 2) else 0

/-- `Math.round(Math.atan2(deltaLat, deltaLng) * (180 / Math.PI))` —
the rounded angle in degrees. -/
noncomputable def jsAngleOf (deltaLat deltaLng : ℚ) : ℤ :=
  round (atan2 (deltaLat : ℝ) (deltaLng : ℝ) * (180 / Real.pi))

/-- `calculateMainAngle(geoJsonData)` from `src/stores/dataStore.js`. -/
noncomputable def calculateMainAngle : Option GeoJson → String :=
  calculateMainAngleWith jsAngleOf

/-- Modelled from the spec's output-formatting words: "`km/1000` rounded to
1 decimal" rendered with one digit after the decimal point.  Used to compare
the source's `toFixed(1)` against the spec's description. -/
def oneDecimalString (x : ℚ) : String :=
  let tenths : ℤ := round (10 * x)
  toString (tenths / 10) ++ "." ++ toString (tenths % 10)

/-- Claim C1 counterexample: a feature collection whose `features` list is
present but empty does NOT yield the sentinel `"N/A"` — the empty array is
truthy in JavaScript, so the guard is passed and the zero total is formatted
as `"0 km"`.  (The distance function is irrelevant: no segment exists.) -/
theorem c1_counterexample :
    calculateBoundaryLength (fun _ _ => 0) (some { features := some [] }) = "0 km"
    ∧ calculateBoundaryLength (fun _ _ => 0) (some { features := some [] }) ≠ "N/A" := by
  have h : calculateBoundaryLength (fun _ _ => 0) (some { features := some [] }) = "0 km" := by
    show formatLength (totalBoundaryLength (fun _ _ => 0) []) = "0 km"
    rw [show totalBoundaryLength (fun _ _ => 0) [] = 0 from rfl]
    norm_num [formatLength, jsToFixed]
    rfl
  exact ⟨h, by rw [h]; decide⟩

/-- Claim C1 (amended): `calculateBoundaryLength` returns `"N/A"` exactly for
a null/missing collection or a missing `features` property; an empty
`features` list, or a feature whose coordinate list is empty, passes the
guard and yields `"0 km"` (zero accumulated length); any ring with fewer
than 2 points contributes zero length.  The embedding is a total function,
so no exception is raised for any modelled input. -/
theorem c1_boundaryLength_degenerate :
    (∀ dist : Coord → Coord → ℚ, calculateBoundaryLength dist none = "N/A")
    ∧ (∀ dist : Coord → Coord → ℚ,
        calculateBoundaryLength dist (some { features := none }) = "N/A")
    ∧ (∀ dist : Coord → Coord → ℚ,
        calculateBoundaryLength dist (some { features := some [] }) = "0 km")
    ∧ (∀ dist : Coord → Coord → ℚ,
        calculateBoundaryLength dist
          (some { features := some [{ geometry := .polygon [] }] }) = "0 km")
    ∧ (∀ (dist : Coord → Coord → ℚ) (ring : List Coord),
        ring.length < 2 → ringLength dist ring = 0) := by
  refine ⟨fun dist => rfl, fun dist => rfl, fun dist => ?_, fun dist => ?_,
    fun dist ring h => ?_⟩
  · show formatLength (totalBoundaryLength dist []) = "0 km"
    rw [show totalBoundaryLength dist [] = 0 from rfl]
    norm_num [formatLength, jsToFixed]
    rfl
  · show formatLength (totalBoundaryLength dist [{ geometry := .polygon [] }]) = "0 km"
    rw [show totalBoundaryLength dist [{ geometry := .polygon [] }] = 0 from by
      unfold totalBoundaryLength boundaryRings; simp]
    norm_num [formatLength, jsToFixed]
    rfl
  · unfold ringLength
    rw [if_neg (by omega)]

/-- Witness for C1: the hypothesis-carrying conjunct evaluated at a
one-point ring. -/
theorem c1_boundaryLength_degenerate_witness :
    ringLength (fun _ _ => 0) [((0 : ℚ), (0 : ℚ))] = 0 :=
  c1_boundaryLength_degenerate.2.2.2.2 (fun _ _ => 0) [((0 : ℚ), (0 : ℚ))] (by decide)

/-- Claim C2 counterexample: `calculateBoundaryLength` has no `LineString`
branch — the dispatch only accepts `Polygon`/`MultiPolygon` — so a single
two-vertex LineString at (0,0)/(0,1) yields `"0 km"`, not `"111 km"`, even
under a distance function that returns 111195 m (one degree of latitude)
for every pair of points. -/
theorem c2_counterexample :
    calculateBoundaryLength (fun _ _ => 111195)
      (some { features := some [{ geometry := .lineString [(0, 0), (0, 1)] }] }) = "0 km"
    ∧ calculateBoundaryLength (fun _ _ => 111195)
      (some { features := some [{ geometry := .lineString [(0, 0), (0, 1)] }] })
      ≠ "111 km" := by
  have h : calculateBoundaryLength (fun _ _ => 111195)
      (some { features := some [{ geometry := .lineString [(0, 0), (0, 1)] }] }) = "0 km" := by
    show formatLength
      (totalBoundaryLength (fun _ _ => 111195)
        [{ geometry := .lineString [(0, 0), (0, 1)] }]) = "0 km"
    rw [show totalBoundaryLength (fun _ _ => 111195)
        [{ geometry := .lineString [(0, 0), (0, 1)] }] = 0 from by
      unfold totalBoundaryLength boundaryRings; simp]
    norm_num [formatLength, jsToFixed]
    rfl
  exact ⟨h, by rw [h]; decide⟩

/-- Claim C2 (amended): `calculateBoundaryLength` ignores LineString
features entirely (only `Polygon`/`MultiPolygon` rings are consumed), so a
collection containing a single LineString feature — whatever its vertices
and whatever the distance metric — produces the zero-length label
`"0 km"`. -/
theorem c2_lineString_ignored :
    ∀ (dist : Coord → Coord → ℚ) (pts : List Coord),
      calculateBoundaryLength dist
        (some { features := some [{ geometry := .lineString pts }] }) = "0 km" := by
  intro dist pts
  show formatLength (totalBoundaryLength dist [{ geometry := .lineString pts }]) = "0 km"
  have h0 : totalBoundaryLength dist [{ geometry := .lineString pts }] = 0 := by
    unfold totalBoundaryLength boundaryRings
    simp
  rw [h0]
  norm_num [formatLength, jsToFixed]
  rfl

/-- Claim C7: the length label of `calculateBoundaryLength` is produced from
the accumulated meters `t` by `km = t / 1000`; strictly above 1000 km it is
"`km/1000` rounded to one decimal" followed by `"k km"`, otherwise `km`
rounded to the nearest integer followed by `" km"`; in particular
1,500,000 m gives `"1.5k km"`. -/
theorem c7_lengthLabel_format :
    (∀ (dist : Coord → Coord → ℚ) (feats : List Feature),
      calculateBoundaryLength dist (some { features := some feats })
        = formatLength (totalBoundaryLength dist feats))
    ∧ (∀ t : ℚ, 1000 < t / 1000 →
        formatLength t = oneDecimalString (t / 1000 / 1000) ++ "k km")
    ∧ (∀ t : ℚ, ¬ 1000 < t / 1000 →
        formatLength t = toString (round (t / 1000)) ++ " km")
    ∧ formatLength 1500000 = "1.5k km" := by
  refine ⟨fun dist feats => rfl, fun t ht => ?_, fun t ht => ?_, by
    norm_num [formatLength, jsToFixed, round_eq]; rfl⟩
  · unfold formatLength jsToFixed oneDecimalString
    rw [if_pos ht]
    norm_num [mul_comm]
  · unfold formatLength jsToFixed
    rw [if_neg ht]
    norm_num

/-- Witness for C7 at concrete totals on both sides of the 1000 km cut. -/
theorem c7_lengthLabel_format_witness :
    formatLength 1500000 = oneDecimalString ((1500000 : ℚ) / 1000 / 1000) ++ "k km"
    ∧ formatLength 500000 = toString (round ((500000 : ℚ) / 1000)) ++ " km" :=
  ⟨c7_lengthLabel_format.2.1 1500000 (by norm_num),
   c7_lengthLabel_format.2.2.1 500000 (by norm_num)⟩

/-- The `Math.min` fold never exceeds its initial accumulator. -/
theorem foldl_min_le_init : ∀ (xs : List ℚ) (x : ℚ), xs.foldl min x ≤ x := by
  intro xs
  induction xs with
  | nil => intro x; exact le_refl x
  | cons y ys ih => intro x; exact le_trans (ih (min x y)) (min_le_left x y)

/-- The `Math.min` fold is a lower bound of the folded list. -/
theorem foldl_min_le_mem : ∀ (xs : List ℚ) (a x : ℚ), a ∈ xs → xs.foldl min x ≤ a := by
  intro xs
  induction xs with
  | nil => intro a x h; cases h
  | cons y ys ih =>
    intro a x h
    rcases List.mem_cons.mp h with rfl | h'
    · exact le_trans (foldl_min_le_init ys (min x a)) (min_le_right x a)
    · exact ih a (min x y) h'

/-- The `Math.min` fold returns the accumulator or a list element. -/
theorem foldl_min_mem : ∀ (xs : List ℚ) (x : ℚ), xs.foldl min x ∈ x :: xs := by
  intro xs
  induction xs with
  | nil => intro x; exact List.mem_singleton.mpr rfl
  | cons y ys ih =>
    intro x
    show List.foldl min (min x y) ys ∈ x :: y :: ys
    rcases List.mem_cons.mp (ih (min x y)) with h' | h'
    · rcases min_choice x y with hm | hm
      · rw [h', hm]; exact List.mem_cons_self _ _
      · rw [h', hm]; exact List.mem_cons_of_mem _ (List.mem_cons_self _ _)
    · exact List.mem_cons_of_mem _ (List.mem_cons_of_mem _ h')

/-- `listMin` is a lower bound. -/
theorem listMin_le {l : List ℚ} {a : ℚ} (ha : a ∈ l) : listMin l ≤ a := by
  cases l with
  | nil => cases ha
  | cons x xs =>
    rcases List.mem_cons.mp ha with rfl | h'
    · exact foldl_min_le_init xs a
    · exact foldl_min_le_mem xs a x h'

/-- `listMin` of a non-empty list is one of its elements. -/
theorem listMin_mem {l : List ℚ} (h : l ≠ []) : listMin l ∈ l := by
  cases l with
  | nil => exact absurd rfl h
  | cons x xs => exact foldl_min_mem xs x

/-- The `Math.max` fold is at least its initial accumulator. -/
theorem init_le_foldl_max : ∀ (xs : List ℚ) (x : ℚ), x ≤ xs.foldl max x := by
  intro xs
  induction xs with
  | nil => intro x; exact le_refl x
  | cons y ys ih => intro x; exact le_trans (le_max_left x y) (ih (max x y))

/-- The `Math.max` fold is an upper bound of the folded list. -/
theorem mem_le_foldl_max : ∀ (xs : List ℚ) (a x : ℚ), a ∈ xs → a ≤ xs.foldl max x := by
  intro xs
  induction xs with
  | nil => intro a x h; cases h
  | cons y ys ih =>
    intro a x h
    rcases List.mem_cons.mp h with rfl | h'
    · exact le_trans (le_max_right x a) (init_le_foldl_max ys (max x a))
    · exact ih a (max x y) h'

/-- The `Math.max` fold returns the accumulator or a list element. -/
theorem foldl_max_mem : ∀ (xs : List ℚ) (x : ℚ), xs.foldl max x ∈ x :: xs := by
  intro xs
  induction xs with
  | nil => intro x; exact List.mem_singleton.mpr rfl
  | cons y ys ih =>
    intro x
    show List.foldl max (max x y) ys ∈ x :: y :: ys
    rcases List.mem_cons.mp (ih (max x y)) with h' | h'
    · rcases max_choice x y with hm | hm
      · rw [h', hm]; exact List.mem_cons_self _ _
      · rw [h', hm]; exact List.mem_cons_of_mem _ (List.mem_cons_self _ _)
    · exact List.mem_cons_of_mem _ (List.mem_cons_of_mem _ h')

/-- `listMax` is an upper bound. -/
theorem le_listMax {l : List ℚ} {a : ℚ} (ha : a ∈ l) : a ≤ listMax l := by
  cases l with
  | nil => cases ha
  | cons x xs =>
    rcases List.mem_cons.mp ha with rfl | h'
    · exact init_le_foldl_max xs a
    · exact mem_le_foldl_max xs a x h'

/-- `listMax` of a non-empty list is one of its elements. -/
theorem listMax_mem {l : List ℚ} (h : l ≠ []) : listMax l ∈ l := by
  cases l with
  | nil => exact absurd rfl h
  | cons x xs => exact foldl_max_mem xs x

/-- `listMin` only depends on the multiset of elements. -/
theorem listMin_perm {l₁ l₂ : List ℚ} (p : l₁.Perm l₂) : listMin l₁ = listMin l₂ := by
  cases l₁ with
  | nil => rw [p.symm.eq_nil]
  | cons x xs =>
    have h₁ : (x :: xs) ≠ [] := by simp
    have h₂ : l₂ ≠ [] := by
      intro h
      rw [h] at p
      exact absurd p.eq_nil h₁
    exact le_antisymm (listMin_le (p.mem_iff.mpr (listMin_mem h₂)))
      (listMin_le (p.mem_iff.mp (listMin_mem h₁)))

/-- `listMax` only depends on the multiset of elements. -/
theorem listMax_perm {l₁ l₂ : List ℚ} (p : l₁.Perm l₂) : listMax l₁ = listMax l₂ := by
  cases l₁ with
  | nil => rw [p.symm.eq_nil]
  | cons x xs =>
    have h₁ : (x :: xs) ≠ [] := by simp
    have h₂ : l₂ ≠ [] := by
      intro h
      rw [h] at p
      exact absurd p.eq_nil h₁
    exact le_antisymm (le_listMax (p.mem_iff.mp (listMax_mem h₁)))
      (le_listMax (p.mem_iff.mpr (listMax_mem h₂)))

/-- The bounding box only depends on the multiset of collected points. -/
theorem bboxOf_perm {pts₁ pts₂ : List Coord} (p : pts₁.Perm pts₂) :
    bboxOf pts₁ = bboxOf pts₂ := by
  unfold bboxOf
  rw [listMin_perm (p.map Prod.fst), listMax_perm (p.map Prod.fst),
    listMin_perm (p.map Prod.snd), listMax_perm (p.map Prod.snd)]

/-- Unfolding equation of `calculateMainAngleWith` on a collection with a
present `features` array. -/
theorem calculateMainAngleWith_some (angleOf : ℚ → ℚ → ℤ) (feats : List Feature) :
    calculateMainAngleWith angleOf (some { features := some feats })
      = if (collectPoints feats).length < 2 then "N/A"
        else
          toString (angleOf
              ((bboxOf (collectPoints feats)).maxLat - (bboxOf (collectPoints feats)).minLat)
              ((bboxOf (collectPoints feats)).maxLng - (bboxOf (collectPoints feats)).minLng))
            ++ "°" := rfl

/-- Claim C8: `calculateMainAngle` is total (it always returns a string by
construction) and returns the sentinel `"N/A"` for a null/missing
collection, for a missing `features` property, and whenever fewer than 2
vertices are collected from the features. -/
theorem c8_mainAngle_never_fails :
    calculateMainAngle none = "N/A"
    ∧ calculateMainAngle (some { features := none }) = "N/A"
    ∧ ∀ feats : List Feature, (collectPoints feats).length < 2 →
        calculateMainAngle (some { features := some feats }) = "N/A" := by
  refine ⟨rfl, rfl, fun feats h => ?_⟩
  show calculateMainAngleWith jsAngleOf (some { features := some feats }) = "N/A"
  rw [calculateMainAngleWith_some, if_pos h]

/-- Witness for C8: a single-point polygon ring collects one vertex, which
is fewer than 2, so the angle label is `"N/A"`. -/
theorem c8_mainAngle_never_fails_witness :
    calculateMainAngle
      (some { features := some [{ geometry := .polygon [[(0, 0)]] }] }) = "N/A" :=
  c8_mainAngle_never_fails.2.2 [{ geometry := .polygon [[(0, 0)]] }] (by decide)

/-- Claim C9: `calculateMainAngle` is invariant under permutation of the
collected input vertices: a shuffle yields the same bounding box and hence
the same angle label. -/
theorem c9_mainAngle_perm_invariant :
    ∀ feats₁ feats₂ : List Feature,
      (collectPoints feats₁).Perm (collectPoints feats₂) →
      bboxOf (collectPoints feats₁) = bboxOf (collectPoints feats₂)
      ∧ calculateMainAngle (some { features := some feats₁ })
          = calculateMainAngle (some { features := some feats₂ }) := by
  intro f₁ f₂ p
  have hb := bboxOf_perm p
  refine ⟨hb, ?_⟩
  show calculateMainAngleWith jsAngleOf (some { features := some f₁ })
      = calculateMainAngleWith jsAngleOf (some { features := some f₂ })
  rw [calculateMainAngleWith_some, calculateMainAngleWith_some, p.length_eq, hb]

/-- Witness for C9: the same two-vertex ring in both orders. -/
theorem c9_mainAngle_perm_invariant_witness :
    bboxOf (collectPoints [{ geometry := .polygon [[(0, 0), (3, 1)]] }])
      = bboxOf (collectPoints [{ geometry := .polygon [[(3, 1), (0, 0)]] }])
    ∧ calculateMainAngle
        (some { features := some [{ geometry := .polygon [[(0, 0), (3, 1)]] }] })
      = calculateMainAngle
        (some { features := some [{ geometry := .polygon [[(3, 1), (0, 0)]] }] }) :=
  c9_mainAngle_perm_invariant _ _
    (show [((0 : ℚ), (0 : ℚ)), (3, 1)].Perm [(3, 1), (0, 0)] from List.Perm.swap _ _ _)

/-- `round` is monotone (via `round x = ⌊x + 1/2⌋`). -/
theorem round_le_round_of_le {a b : ℝ} (h : a ≤ b) : round a ≤ round b := by
  rw [round_eq, round_eq]
  exact Int.floor_mono (by linarith)

/-- For non-negative arguments, `Math.atan2` lands in the first quadrant. -/
theorem atan2_mem_first_quadrant {y x : ℝ} (hy : 0 ≤ y) (hx : 0 ≤ x) :
    0 ≤ atan2 y x ∧ atan2 y x ≤ Real.pi / 2 := by
  unfold atan2
  rcases lt_or_eq_of_le hx with hx' | hx'
  · rw [if_pos hx']
    constructor
    · have hd : (0 : ℝ) ≤ y / x := div_nonneg hy hx'.le
      have harc := Real.arctan_strictMono.monotone hd
      rwa [Real.arctan_zero] at harc
    · exact (Real.arctan_lt_pi_div_two _).le
  · subst hx'
    rw [if_neg (lt_irrefl 0), if_neg (lt_irrefl 0)]
    by_cases hy' : 0 < y
    · rw [if_pos hy']
      exact ⟨(by positivity : (0 : ℝ) < Real.pi / 2).le, le_refl _⟩
    · have hy0 : y = 0 := le_antisymm (not_lt.mp hy') hy
      rw [if_neg hy', if_neg (by rw [hy0]; exact lt_irrefl 0)]
      exact ⟨le_refl 0, (by positivity : (0 : ℝ) < Real.pi / 2).le⟩

/-- For non-negative deltas, the rounded degree value is between 0 and 90. -/
theorem jsAngleOf_range {dLat dLng : ℚ} (h1 : 0 ≤ dLat) (h2 : 0 ≤ dLng) :
    0 ≤ jsAngleOf dLat dLng ∧ jsAngleOf dLat dLng ≤ 90 := by
  have h1' : (0 : ℝ) ≤ (dLat : ℝ) := by exact_mod_cast h1
  have h2' : (0 : ℝ) ≤ (dLng : ℝ) := by exact_mod_cast h2
  obtain ⟨ha, hb⟩ := atan2_mem_first_quadrant h1' h2'
  unfold jsAngleOf
  have hfac : (0 : ℝ) ≤ 180 / Real.pi := by positivity
  have hdeg0 : (0 : ℝ) ≤ atan2 (dLat : ℝ) (dLng : ℝ) * (180 / Real.pi) :=
    mul_nonneg ha hfac
  have hdeg90 : atan2 (dLat : ℝ) (dLng : ℝ) * (180 / Real.pi) ≤ 90 := by
    have hπ : Real.pi ≠ 0 := Real.pi_ne_zero
    have h90 : Real.pi / 2 * (180 / Real.pi) = 90 := by
      field_simp
      ring
    calc atan2 (dLat : ℝ) (dLng : ℝ) * (180 / Real.pi)
        ≤ Real.pi / 2 * (180 / Real.pi) := mul_le_mul_of_nonneg_right hb hfac
      _ = 90 := h90
  constructor
  · have hr := round_le_round_of_le hdeg0
    simpa using hr
  · have hr := round_le_round_of_le hdeg90
    simpa using hr

/-- For a non-empty point list, the bounding box is well ordered in
longitude. -/
theorem bbox_minLng_le_maxLng {pts : List Coord} (h : pts ≠ []) :
    (bboxOf pts).minLng ≤ (bboxOf pts).maxLng := by
  show listMin (pts.map Prod.fst) ≤ listMax (pts.map Prod.fst)
  have hne : pts.map Prod.fst ≠ [] := by simpa using h
  exact listMin_le (listMax_mem hne)

/-- For a non-empty point list, the bounding box is well ordered in
latitude. -/
theorem bbox_minLat_le_maxLat {pts : List Coord} (h : pts ≠ []) :
    (bboxOf pts).minLat ≤ (bboxOf pts).maxLat := by
  show listMin (pts.map Prod.snd) ≤ listMax (pts.map Prod.snd)
  have hne : pts.map Prod.snd ≠ [] := by simpa using h
  exact listMin_le (listMax_mem hne)

/-- Claim C10: whenever `calculateMainAngle` does not return `"N/A"`, the
label is a rounded integer angle between 0° and 90°: both bounding-box
deltas are non-negative, so `atan2` stays in the first quadrant. -/
theorem c10_mainAngle_range :
    ∀ feats : List Feature,
      calculateMainAngle (some { features := some feats }) ≠ "N/A" →
      ∃ n : ℤ, 0 ≤ n ∧ n ≤ 90
        ∧ calculateMainAngle (some { features := some feats }) = toString n ++ "°" := by
  intro feats hne
  by_cases h : (collectPoints feats).length < 2
  · rw [show calculateMainAngle (some { features := some feats })
        = calculateMainAngleWith jsAngleOf (some { features := some feats }) from rfl,
      calculateMainAngleWith_some, if_pos h] at hne
    exact absurd rfl hne
  · have hnil : collectPoints feats ≠ [] := by
      intro h0
      exact h (by rw [h0]; decide)
    obtain ⟨hr0, hr90⟩ := jsAngleOf_range (sub_nonneg.mpr (bbox_minLat_le_maxLat hnil))
      (sub_nonneg.mpr (bbox_minLng_le_maxLng hnil))
    refine ⟨_, hr0, hr90, ?_⟩
    rw [show calculateMainAngle (some { features := some feats })
        = calculateMainAngleWith jsAngleOf (some { features := some feats }) from rfl,
      calculateMainAngleWith_some, if_neg h]

/-- Witness for C10: a two-vertex horizontal ring gives the label `"0°"`,
which is not `"N/A"`, so the range theorem applies to it. -/
theorem c10_mainAngle_range_witness :
    ∃ n : ℤ, 0 ≤ n ∧ n ≤ 90
      ∧ calculateMainAngle
          (some { features := some [{ geometry := .polygon [[(0, 0), (1, 0)]] }] })
        = toString n ++ "°" := by
  apply c10_mainAngle_range
  have hbb : bboxOf (collectPoints [{ geometry := Geometry.polygon [[(0, 0), (1, 0)]] }])
      = { minLng := 0, maxLng := 1, minLat := 0, maxLat := 0 } := by
    show bboxOf [((0 : ℚ), (0 : ℚ)), (1, 0)]
        = { minLng := 0, maxLng := 1, minLat := 0, maxLat := 0 }
    simp [bboxOf, listMin, listMax]
  rw [show calculateMainAngle
        (some { features := some [{ geometry := Geometry.polygon [[(0, 0), (1, 0)]] }] })
      = calculateMainAngleWith jsAngleOf
        (some { features := some [{ geometry := Geometry.polygon [[(0, 0), (1, 0)]] }] })
      from rfl,
    calculateMainAngleWith_some, if_neg (by decide), hbb]
  have hang : jsAngleOf 0 1 = 0 := by
    unfold jsAngleOf atan2
    norm_num [Real.arctan_zero]
  dsimp only
  norm_num [hang]
  decide

/-- State of one layer record in the toggle-capable store variant
(`toggleLayerVisibility` in `src/stores/dataStore.js`): the flags
`visible` / `isLoading` / `isLoaded`, the analysis-layer exclusion flags,
whether the geometry/table/summary fields have been populated (`dataSet`),
plus two observers of the asynchronous loader — how many times this layer's
loader has been invoked and how many of those invocations are still
unresolved. -/
structure ToggleLayer : Type where
  visible : Bool
  isLoading : Bool
  isLoaded : Bool
  isAnalysisLayer : Bool
  isIsochroneAnalysisLayer : Bool
  dataSet : Bool
  loaderCalls : ℕ
  inflight : ℕ
deriving DecidableEq, Repr

/-- The events of one layer's lifecycle under the single-threaded event
loop: `toggle` is the synchronous prefix of `toggleLayerVisibility` up to
and including the loader invocation; `resolveOk`/`resolveErr` are the
continuations after the awaited loader promise fulfils or rejects (the
`catch` and `finally` blocks). -/
inductive ToggleEvent : Type where
  | toggle
  | resolveOk
  | resolveErr
deriving DecidableEq, Repr

/-- `toggleLayerVisibility`: flip `visible`, then — only if the layer is
now visible, not loaded, not loading and not an analysis layer — set
`isLoading` and invoke the loader. -/
def toggleStep (s : ToggleLayer) : ToggleLayer :=
  let s' := { s with visible := !s.visible }
  if s'.visible && !s'.isLoaded && !s'.isLoading
      && !s'.isAnalysisLayer && !s'.isIsochroneAnalysisLayer then
    { s' with
        isLoading := true
        loaderCalls := s'.loaderCalls + 1
        inflight := s'.inflight + 1 }
  else s'

/-- Continuation after a successful load: store the result fields, set
`isLoaded`, clear `isLoading` (the `finally` block).  With no outstanding
promise the event cannot occur and is a no-op. -/
def resolveOkStep (s : ToggleLayer) : ToggleLayer :=
  if s.inflight = 0 then s
  else
    { s with
        inflight := s.inflight - 1
        dataSet := true
        isLoaded := true
        isLoading := false }

/-- Continuation after a failed load: the `catch` block reverts `visible`
to `false` and the `finally` block clears `isLoading`; the error is logged,
not re-thrown, so the transition is total. -/
def resolveErrStep (s : ToggleLayer) : ToggleLayer :=
  if s.inflight = 0 then s
  else
    { s with
        inflight := s.inflight - 1
        visible := false
        isLoading := false }

/-- Event dispatch. -/
def applyEvent : ToggleEvent → ToggleLayer → ToggleLayer
  | .toggle, s => toggleStep s
  | .resolveOk, s => resolveOkStep s
  | .resolveErr, s => resolveErrStep s

/-- A freshly constructed layer record: hidden, nothing loaded. -/
def initialLayer : ToggleLayer :=
  { visible := false
    isLoading := false
    isLoaded := false
    isAnalysisLayer := false
    isIsochroneAnalysisLayer := false
    dataSet := false
    loaderCalls := 0
    inflight := 0 }

/-- Run a sequence of events from a state. -/
def runEvents (s : ToggleLayer) (evs : List ToggleEvent) : ToggleLayer :=
  evs.foldl (fun t e => applyEvent e t) s

/-- Reachability invariant of the toggle machine: the in-flight count
mirrors `isLoading`, populated data implies `isLoaded`, and a loading layer
is never already loaded. -/
def ToggleInv (s : ToggleLayer) : Prop :=
  s.inflight = (if s.isLoading then 1 else 0)
  ∧ (s.dataSet = true → s.isLoaded = true)
  ∧ (s.isLoading = true → s.isLoaded = false)

/-- The initial state satisfies the invariant. -/
theorem toggleInv_init : ToggleInv initialLayer := by
  refine ⟨rfl, ?_, ?_⟩ <;> intro h <;> exact absurd h (by decide)

/-- Every event preserves the invariant. -/
theorem toggleInv_step (e : ToggleEvent) (s : ToggleLayer) (h : ToggleInv s) :
    ToggleInv (applyEvent e s) := by
  obtain ⟨v, ld, lded, a1, a2, ds, c, f⟩ := s
  cases e <;>
    cases v <;> cases ld <;> cases lded <;> cases a1 <;> cases a2 <;> cases ds <;>
    simp_all [ToggleInv, applyEvent, toggleStep, resolveOkStep, resolveErrStep]

/-- The invariant holds along every run from the initial state. -/
theorem toggleInv_run (s : ToggleLayer) (h : ToggleInv s) (evs : List ToggleEvent) :
    ToggleInv (runEvents s evs) := by
  induction evs generalizing s with
  | nil => exact h
  | cons e evs ih => exact ih _ (toggleInv_step e s h)

/-- Claim C3: once a layer is `Loading` or `Loaded`, a further toggle does
not invoke the loader; two (or three) toggles issued before the first load
resolves produce exactly one loader invocation; a toggle after a successful
load never re-invokes the loader; and along every event sequence at most
one load is in flight. -/
theorem c3_no_double_load :
    (∀ s : ToggleLayer, s.isLoading = true ∨ s.isLoaded = true →
      (toggleStep s).loaderCalls = s.loaderCalls)
    ∧ (runEvents initialLayer [.toggle, .toggle]).loaderCalls = 1
    ∧ (runEvents initialLayer [.toggle, .toggle, .toggle]).loaderCalls = 1
    ∧ (runEvents initialLayer [.toggle, .resolveOk, .toggle, .toggle]).loaderCalls = 1
    ∧ ∀ evs : List ToggleEvent, (runEvents initialLayer evs).inflight ≤ 1 := by
  refine ⟨?_, by decide, by decide, by decide, ?_⟩
  · intro s h
    obtain ⟨v, ld, lded, a1, a2, ds, c, f⟩ := s
    rcases h with h | h <;> simp_all [toggleStep]
  · intro evs
    have h := (toggleInv_run initialLayer toggleInv_init evs).1
    rw [h]
    split <;> omega

/-- A layer in the middle of a load (used to witness C3). -/
def loadingLayerExample : ToggleLayer :=
  { visible := true
    isLoading := true
    isLoaded := false
    isAnalysisLayer := false
    isIsochroneAnalysisLayer := false
    dataSet := false
    loaderCalls := 1
    inflight := 1 }

/-- Witness for C3: a toggle on a loading layer keeps `loaderCalls` at 1,
and a concrete run never has more than one in-flight load. -/
theorem c3_no_double_load_witness :
    (toggleStep loadingLayerExample).loaderCalls = 1
    ∧ (runEvents initialLayer [.toggle, .resolveErr, .toggle]).inflight ≤ 1 :=
  ⟨(c3_no_double_load.1 loadingLayerExample (Or.inl rfl)).trans rfl,
   c3_no_double_load.2.2.2.2 [.toggle, .resolveErr, .toggle]⟩

/-- Claim C5: if a loader failure resolves while the layer is `Loading`,
the layer leaves the loading state (`isLoading` becomes false, `isLoaded`
stays false), `visible` is reverted to `false`, and the data fields remain
unset; the `catch`/`finally` blocks make this transition total, so the
error never escapes to the caller of `toggleLayerVisibility`. -/
theorem c5_load_failure_recovery :
    ∀ evs : List ToggleEvent,
      (runEvents initialLayer evs).isLoading = true →
      (resolveErrStep (runEvents initialLayer evs)).isLoading = false
      ∧ (resolveErrStep (runEvents initialLayer evs)).isLoaded = false
      ∧ (resolveErrStep (runEvents initialLayer evs)).visible = false
      ∧ (resolveErrStep (runEvents initialLayer evs)).dataSet = false := by
  intro evs h
  obtain ⟨h1, h2, h3⟩ := toggleInv_run initialLayer toggleInv_init evs
  have hf : (runEvents initialLayer evs).inflight = 1 := by rw [h1, if_pos h]
  have hld : (runEvents initialLayer evs).isLoaded = false := h3 h
  have hds : (runEvents initialLayer evs).dataSet = false := by
    cases hd : (runEvents initialLayer evs).dataSet
    · rfl
    · rw [h2 hd] at hld
      cases hld
  refine ⟨?_, ?_, ?_, ?_⟩ <;> simp [resolveErrStep, hf, hld, hds]

/-- Witness for C5: the run consisting of a single toggle leaves the layer
loading; a failure then recovers it locally. -/
theorem c5_load_failure_recovery_witness :
    (resolveErrStep (runEvents initialLayer [.toggle])).isLoading = false
    ∧ (resolveErrStep (runEvents initialLayer [.toggle])).isLoaded = false
    ∧ (resolveErrStep (runEvents initialLayer [.toggle])).visible = false
    ∧ (resolveErrStep (runEvents initialLayer [.toggle])).dataSet = false :=
  c5_load_failure_recovery [.toggle] (by decide)

/-- The coordinate points Leaflet's `L.geoJSON` layer contributes to
`getBounds()` — unlike the summary functions, every geometry type counts. -/
def pointsOfGeometry : Geometry → List Coord
  | .polygon coordinates => coordinates.flatten
  | .multiPolygon coordinates => coordinates.flatten.flatten
  | .lineString coordinates => coordinates
  | .point coordinates => [coordinates]

/-- All coordinate points of a feature collection (for bounds). -/
def geoJsonPoints (gj : GeoJson) : List Coord :=
  ((gj.features.getD []).map (fun f => pointsOfGeometry f.geometry)).flatten

/-- `L.geoJSON(data).getBounds().getCenter()`: the midpoint of the
bounding box as a Leaflet `(lat, lng)` pair.  With no points the bounds
are invalid and Leaflet's `getCenter()` throws — modelled as `none`. -/
def bboxCenterOf (pts : List Coord) : Option (ℚ × ℚ) :=
  match pts with
  | [] => none
  | _ :: _ =>
    some (((bboxOf pts).minLat + (bboxOf pts).maxLat) / 2,
      ((bboxOf pts).minLng + (bboxOf pts).maxLng) / 2)

/-- What a layer's injected loader resolves with (`result.geoJsonData`). -/
structure LoadResult : Type where
  geoJsonData : Option GeoJson
deriving DecidableEq, Repr

/-- One record of the city-store variant: identity, the lazily loaded
geometry, the derived summary fields `length`/`angle`, the cached
bounding-box center, and the static anchor `center`/`zoom`. -/
structure CityLayer : Type where
  layerId : String
  geoJsonData : Option GeoJson
  length : Option String
  angle : Option String
  boundsCenter : Option (ℚ × ℚ)
  center : Option Coord
  zoom : Option ℚ
deriving DecidableEq, Repr

/-- One iteration of the `loadCityLayers` loop body for a single layer:
skip if `geoJsonData` is already set; otherwise invoke the loader inside
`try`/`catch`.  On success assign `geoJsonData`, the `length` and `angle`
summaries, and — if the feature array is non-empty — the cached bounds
center.  A loader rejection is caught and leaves the record unchanged; a
bounds failure (`bboxCenterOf` = `none`, where Leaflet would throw) is
caught after the other fields were already assigned, exactly as the
mutation order of the source dictates. -/
def processCityLayer (dist : Coord → Coord → ℚ) (angleOf : ℚ → ℚ → ℤ)
    (loader : CityLayer → Except String LoadResult) (l : CityLayer) : CityLayer :=
  if l.geoJsonData.isSome then l
  else
    match loader l with
    | .error _ => l
    | .ok result =>
      let l₁ := { l with
          geoJsonData := result.geoJsonData
          length := some (calculateBoundaryLength dist result.geoJsonData)
          angle := some (calculateMainAngleWith angleOf result.geoJsonData) }
      match result.geoJsonData with
      | none => l₁
      | some gj =>
        match gj.features with
        | none => l₁
        | some fs =>
          if 0 < fs.length then
            match bboxCenterOf (geoJsonPoints gj) with
            | some c => { l₁ with boundsCenter := some c }
            | none => l₁
          else l₁

/-- `loadCityLayers` from `src/stores/dataStore.js`: a sequential
`for … of` loop over the group's layers; the second component records the
order in which loaders were actually invoked (one entry per
not-yet-loaded layer).  Totality of this function is the embedded form of
"no exception escapes the bulk load". -/
def loadCityLayers (dist : Coord → Coord → ℚ) (angleOf : ℚ → ℚ → ℤ)
    (loader : CityLayer → Except String LoadResult) :
    List CityLayer → List CityLayer × List String
  | [] => ([], [])
  | l :: rest =>
    let tail := loadCityLayers dist angleOf loader rest
    (processCityLayer dist angleOf loader l :: tail.1,
      (if l.geoJsonData.isSome then [] else [l.layerId]) ++ tail.2)

/-- Claim C4: `loadCityLayers` processes layers pointwise and in list
order — the loader is invoked exactly for the not-yet-loaded layers, in
sequence — a rejected loader leaves its layer untouched (fields stay
unpopulated) without affecting the others, and a fulfilled loader
populates `geoJsonData` and both summary fields. -/
theorem c4_bulkLoad_isolation :
    (∀ (dist : Coord → Coord → ℚ) (angleOf : ℚ → ℚ → ℤ)
        (loader : CityLayer → Except String LoadResult) (layers : List CityLayer),
      (loadCityLayers dist angleOf loader layers).1
        = layers.map (processCityLayer dist angleOf loader))
    ∧ (∀ (dist : Coord → Coord → ℚ) (angleOf : ℚ → ℚ → ℤ)
        (loader : CityLayer → Except String LoadResult) (layers : List CityLayer),
      (loadCityLayers dist angleOf loader layers).2
        = (layers.filter (fun l => l.geoJsonData.isNone)).map (fun l => l.layerId))
    ∧ (∀ (dist : Coord → Coord → ℚ) (angleOf : ℚ → ℚ → ℤ)
        (loader : CityLayer → Except String LoadResult) (l : CityLayer) (e : String),
      l.geoJsonData = none → loader l = .error e →
      processCityLayer dist angleOf loader l = l)
    ∧ (∀ (dist : Coord → Coord → ℚ) (angleOf : ℚ → ℚ → ℤ)
        (loader : CityLayer → Except String LoadResult) (l : CityLayer) (r : LoadResult),
      l.geoJsonData = none → loader l = .ok r →
      (processCityLayer dist angleOf loader l).geoJsonData = r.geoJsonData
      ∧ (processCityLayer dist angleOf loader l).length
          = some (calculateBoundaryLength dist r.geoJsonData)
      ∧ (processCityLayer dist angleOf loader l).angle
          = some (calculateMainAngleWith angleOf r.geoJsonData)) := by
  refine ⟨?_, ?_, ?_, ?_⟩
  · intro dist angleOf loader layers
    induction layers with
    | nil => rfl
    | cons l rest ih => simp [loadCityLayers, ih]
  · intro dist angleOf loader layers
    induction layers with
    | nil => rfl
    | cons l rest ih =>
      cases h : l.geoJsonData <;>
        simp [loadCityLayers, h, ih, List.filter_cons]
  · intro dist angleOf loader l e h hload
    simp [processCityLayer, h, hload]
  · intro dist angleOf loader l r h hload
    simp only [processCityLayer, h, hload, Option.isSome_none, Bool.false_eq_true,
      if_false]
    cases hr : r.geoJsonData with
    | none => simp [hr]
    | some gj =>
      cases hf : gj.features with
      | none => simp [hr, hf]
      | some fs =>
        by_cases hl : 0 < fs.length
        · cases hc : bboxCenterOf (geoJsonPoints gj) <;>
            simp [hr, hf, hl, hc]
        · simp [hr, hf, hl]

/-- A feature collection used by the C4 witness. -/
def cityGeoExample : GeoJson :=
  { features := some [{ geometry := .polygon [[(0, 0), (1, 0), (1, 1)]] }] }

/-- A fresh, unloaded layer record named "A" (its loader will reject). -/
def cityLayerA : CityLayer :=
  { layerId := "A"
    geoJsonData := none
    length := none
    angle := none
    boundsCenter := none
    center := none
    zoom := none }

/-- A fresh, unloaded layer record named "B" (its loader will fulfil). -/
def cityLayerB : CityLayer := { cityLayerA with layerId := "B" }

/-- A loader that rejects for layer "A" and fulfils for every other id. -/
def cityLoaderExample : CityLayer → Except String LoadResult :=
  fun l =>
    if l.layerId = "A" then .error "fetch failed"
    else .ok { geoJsonData := some cityGeoExample }

/-- Witness for C4: under `cityLoaderExample`, layer "A" ends unchanged
(fields unpopulated) while layer "B" ends with geometry and both summary
labels populated. -/
theorem c4_bulkLoad_isolation_witness :
    processCityLayer (fun _ _ => 0) (fun _ _ => 0) cityLoaderExample cityLayerA = cityLayerA
    ∧ (processCityLayer (fun _ _ => 0) (fun _ _ => 0) cityLoaderExample cityLayerB).geoJsonData
        = some cityGeoExample
    ∧ (processCityLayer (fun _ _ => 0) (fun _ _ => 0) cityLoaderExample cityLayerB).length
        = some (calculateBoundaryLength (fun _ _ => 0) (some cityGeoExample))
    ∧ (processCityLayer (fun _ _ => 0) (fun _ _ => 0) cityLoaderExample cityLayerB).angle
        = some (calculateMainAngleWith (fun _ _ => 0) (some cityGeoExample)) := by
  obtain ⟨h1, h2, h3⟩ := c4_bulkLoad_isolation.2.2.2 (fun _ _ => 0) (fun _ _ => 0)
    cityLoaderExample cityLayerB { geoJsonData := some cityGeoExample } rfl rfl
  exact ⟨c4_bulkLoad_isolation.2.2.1 (fun _ _ => 0) (fun _ _ => 0)
    cityLoaderExample cityLayerA "fetch failed" rfl rfl, h1, h2, h3⟩

/-- A layer group (`groupName` is irrelevant to navigation). -/
structure NavGroup : Type where
  groupLayers : List CityLayer
deriving DecidableEq, Repr

/-- Inner loop of `findLayerById`: first match wins. -/
def findInLayers : List CityLayer → String → Option CityLayer
  | [], _ => none
  | l :: ls, layerId => if l.layerId = layerId then some l else findInLayers ls layerId

/-- `findLayerById`: nested loops over groups and their layers with early
return; `null` on a miss. -/
def findLayerById : List NavGroup → String → Option CityLayer
  | [], _ => none
  | g :: gs, layerId =>
    match findInLayers g.groupLayers layerId with
    | some l => some l
    | none => findLayerById gs layerId

/-- Outcome of `navigateToCity` (abstracting away the map instance and the
basemap side effects): a `setView` target, an early `console.error` return,
or the uncaught Leaflet error thrown by `getBounds().getCenter()` when the
loaded collection has no coordinates. -/
inductive NavResult : Type where
  | navigate (center : ℚ × ℚ) (zoom : ℚ)
  | notFound
  | invalidBounds
deriving DecidableEq, Repr

/-- `cityLayer.zoom || 11`: JavaScript `||` falls through on falsy values,
so both a missing zoom and a zoom of `0` yield the default 11. -/
def zoomOrDefault : Option ℚ → ℚ
  | none => 11
  | some z => if z = 0 then 11 else z

/-- The `else if (cityLayer.center)` fallback: the anchor `[lng, lat]` is
swapped into Leaflet's `[lat, lng]`; with no anchor either, the function
logs and returns without navigating. -/
def anchorTarget (cityLayer : CityLayer) : NavResult :=
  match cityLayer.center with
  | some c => .navigate (c.2, c.1) (zoomOrDefault cityLayer.zoom)
  | none => .notFound

/-- The target-resolution logic of `navigateToCity` from
`src/stores/dataStore.js`: look the layer up; then, by priority, use the
cached `boundsCenter`, else the bounding-box center computed on the fly
from loaded non-empty geometry, else the static anchor. -/
def navigateToCityTarget (groups : List NavGroup) (cityId : String) : NavResult :=
  match findLayerById groups cityId with
  | none => .notFound
  | some cityLayer =>
    match cityLayer.boundsCenter with
    | some c => .navigate c (zoomOrDefault cityLayer.zoom)
    | none =>
      match cityLayer.geoJsonData with
      | none => anchorTarget cityLayer
      | some gj =>
        match gj.features with
        | none => anchorTarget cityLayer
        | some fs =>
          if 0 < fs.length then
            match bboxCenterOf (geoJsonPoints gj) with
            | some c => .navigate c (zoomOrDefault cityLayer.zoom)
            | none => .invalidBounds
          else anchorTarget cityLayer

/-- Claim C6: `navigateToCity` resolves its target by a fixed priority in
which the first available source wins — cached bounds center, then the
bounding-box center of loaded non-empty geometry, then the static anchor —
and an unknown id, or the absence of all three sources, produces an
error/absence result instead of a navigation. -/
theorem c6_navigation_priority :
    (∀ (groups : List NavGroup) (cityId : String),
      findLayerById groups cityId = none →
      navigateToCityTarget groups cityId = .notFound)
    ∧ (∀ (groups : List NavGroup) (cityId : String) (l : CityLayer) (c : ℚ × ℚ),
      findLayerById groups cityId = some l → l.boundsCenter = some c →
      navigateToCityTarget groups cityId = .navigate c (zoomOrDefault l.zoom))
    ∧ (∀ (groups : List NavGroup) (cityId : String) (l : CityLayer) (gj : GeoJson)
        (fs : List Feature) (c : ℚ × ℚ),
      findLayerById groups cityId = some l → l.boundsCenter = none →
      l.geoJsonData = some gj → gj.features = some fs → 0 < fs.length →
      bboxCenterOf (geoJsonPoints gj) = some c →
      navigateToCityTarget groups cityId = .navigate c (zoomOrDefault l.zoom))
    ∧ (∀ (groups : List NavGroup) (cityId : String) (l : CityLayer) (a : Coord),
      findLayerById groups cityId = some l → l.boundsCenter = none →
      l.geoJsonData = none → l.center = some a →
      navigateToCityTarget groups cityId = .navigate (a.2, a.1) (zoomOrDefault l.zoom))
    ∧ (∀ (groups : List NavGroup) (cityId : String) (l : CityLayer),
      findLayerById groups cityId = some l → l.boundsCenter = none →
      l.geoJsonData = none → l.center = none →
      navigateToCityTarget groups cityId = .notFound) := by
  refine ⟨?_, ?_, ?_, ?_, ?_⟩
  · intro groups cityId h
    simp [navigateToCityTarget, h]
  · intro groups cityId l c h hb
    simp [navigateToCityTarget, h, hb]
  · intro groups cityId l gj fs c h hb hg hf hl hc
    simp [navigateToCityTarget, h, hb, hg, hf, hl, hc]
  · intro groups cityId l a h hb hg ha
    simp [navigateToCityTarget, anchorTarget, h, hb, hg, ha]
  · intro groups cityId l h hb hg ha
    simp [navigateToCityTarget, anchorTarget, h, hb, hg, ha]

/-- A layer with both a cached bounds center and a distinct anchor (used
to witness C6's priority order). -/
def navLayerCached : CityLayer :=
  { layerId := "cached"
    geoJsonData := none
    length := none
    angle := none
    boundsCenter := some (10, 20)
    center := some (99, 88)
    zoom := some 12 }

/-- A two-layer registry for the C6 witness. -/
def navGroupsExample : List NavGroup :=
  [{ groupLayers := [cityLayerA, navLayerCached] }]

/-- Witness for C6: the cached center wins over the distinct anchor, and an
unknown id resolves to the absence result. -/
theorem c6_navigation_priority_witness :
    navigateToCityTarget navGroupsExample "cached"
      = .navigate (10, 20) (zoomOrDefault navLayerCached.zoom)
    ∧ navigateToCityTarget navGroupsExample "missing" = .notFound :=
  ⟨c6_navigation_priority.2.1 navGroupsExample "cached" navLayerCached (10, 20) rfl rfl,
   c6_navigation_priority.1 navGroupsExample "missing" rfl⟩
